import Mathlib

/-!
Verification development for the hs-invoice-manager backend
(`src/server/routes.ts` and the shared schema/storage modules).

The definitions below are a shallow embedding of the TypeScript source:

* machine times are `Int` (epoch seconds for token expiry, epoch
  milliseconds for CSRF-state timestamps, matching the units the code
  uses at each site);
* calendar dates (`hs_due_date`, the midnight-truncated `today`) are
  `Int` values in `YYYYMMDD` form, so the JavaScript `Date` comparison
  `dueDate < today` corresponds to `<` on these integers;
* numeric invoice amounts (`parseFloat(hs_amount_paid || "0")`) are
  modelled as `Int`;
* provider (HubSpot) calls are modelled by explicit oracles: a
  `ProviderRefresh` value for the token-refresh exchange, and
  success/failure oracles for archive and update calls;
* nullable / optional JS values are `Option`.
-/

namespace InvoiceManager

/-! ## Token Store (`MemStorage` in the storage module)

`MemStorage` keeps a `Map<string, HubspotToken>`; we embed it as an
association list with at most one binding per key, and `getToken`,
`saveToken`, `deleteToken` mirroring `Map.get` / `Map.set` /
`Map.delete`. -/

/-- A stored OAuth token record (`hubspot_tokens` row / `HubspotToken`). -/
structure HubspotToken where
  portalId : String
  accessToken : String
  refreshToken : String
  expiresAt : Int
deriving Repr, DecidableEq

/-- The token store state: `MemStorage.tokens : Map<string, HubspotToken>`. -/
abbrev TokenStore := List (String × HubspotToken)

/-- `storage.getToken(portalId)`: `this.tokens.get(portalId) || null`. -/
def getToken (store : TokenStore) (portalId : String) : Option HubspotToken :=
  (store.find? (fun e => e.1 == portalId)).map (fun e => e.2)

/-- `storage.saveToken(token)`: `this.tokens.set(token.portalId, token)`. -/
def saveToken (store : TokenStore) (token : HubspotToken) : TokenStore :=
  (store.filter (fun e => !(e.1 == token.portalId))) ++ [(token.portalId, token)]

/-- `storage.deleteToken(portalId)`: `this.tokens.delete(portalId)`. -/
def deleteToken (store : TokenStore) (portalId : String) : TokenStore :=
  store.filter (fun e => !(e.1 == portalId))

/-! ## OAuth configuration and the refresh helper (`routes.ts` 8-14, 74-105) -/

/-- The environment-derived OAuth configuration
(`HUBSPOT_CLIENT_ID`, `HUBSPOT_CLIENT_SECRET`, `HS_PRIVATE_APP_TOKEN`). -/
structure OAuthConfig where
  clientId : Option String
  clientSecret : Option String
  privateAppToken : Option String
deriving Repr, DecidableEq

/-- Outcome of the provider call
`hubspotClient.oauth.tokensApi.create("refresh_token", ...)`:
either a new token response (`accessToken`, optionally rotated
`refreshToken`, `expiresIn`) or a thrown error. -/
inductive ProviderRefresh
  | ok (accessToken : String) (rotatedRefreshToken : Option String) (expiresIn : Int)
  | err
deriving Repr, DecidableEq

/-- `refreshAccessToken(refreshToken, portalId)` (`routes.ts` 74-105).
Returns the new token record (or `none`) together with the token store
after the side effects (`saveToken` on success, `deleteToken` on a
provider failure). When the OAuth client credentials are not configured
it returns `none` without touching the store or the provider. -/
def refreshAccessToken (cfg : OAuthConfig) (provider : ProviderRefresh) (now : Int)
    (store : TokenStore) (refreshToken portalId : String) :
    Option HubspotToken × TokenStore :=
  if cfg.clientId.isNone || cfg.clientSecret.isNone then
    (none, store)
  else
    match provider with
    | .ok access rotated expiresIn =>
        let newToken : HubspotToken :=
          { portalId := portalId
            accessToken := access
            refreshToken := rotated.getD refreshToken
            expiresAt := now + expiresIn }
        (some newToken, saveToken store newToken)
    | .err =>
        (none, deleteToken store portalId)

/-! ## Client resolution (`getHubSpotClient`, `routes.ts` 46-71) -/

/-- An authenticated HubSpot client handle: `new HubSpotClient({ accessToken })`. -/
structure ClientHandle where
  accessToken : String
deriving Repr, DecidableEq

/-- `new HubSpotClient({ accessToken: HS_PRIVATE_APP_TOKEN })` when the
static private-app token is configured (`routes.ts` 66-68). -/
def fallbackClient (cfg : OAuthConfig) : Option ClientHandle :=
  cfg.privateAppToken.map (fun t => ⟨t⟩)

/-- Result of one `getHubSpotClient` call: the resolved handle (or
`null`), the token store after any refresh side effects, and how many
times the refresh routine (`refreshAccessToken`) was invoked. -/
structure ResolveResult where
  client : Option ClientHandle
  store : TokenStore
  refreshCalls : Nat
deriving Repr, DecidableEq

/-- `getHubSpotClient(portalId?)` (`routes.ts` 46-71). With a portal id
and a stored token: refresh when `token.expiresAt <= now + 60`, else
build the handle from the stored access token. When the refresh fails,
or there is no stored token, or no portal id, control falls through to
the `HS_PRIVATE_APP_TOKEN` fallback. -/
def getHubSpotClient (cfg : OAuthConfig) (provider : ProviderRefresh) (now : Int)
    (store : TokenStore) (portalId : Option String) : ResolveResult :=
  match portalId with
  | some pid =>
    match getToken store pid with
    | some token =>
        if token.expiresAt ≤ now + 60 then
          match refreshAccessToken cfg provider now store token.refreshToken pid with
          | (some refreshed, store') => ⟨some ⟨refreshed.accessToken⟩, store', 1⟩
          | (none, store') => ⟨fallbackClient cfg, store', 1⟩
        else
          ⟨some ⟨token.accessToken⟩, store, 0⟩
    | none => ⟨fallbackClient cfg, store, 0⟩
  | none => ⟨fallbackClient cfg, store, 0⟩

/-! ## CSRF state registry (`routes.ts` 22-43, 121-123, 145-149) -/

/-- The registry `oauthStates : Map<string, { createdAt: number }>`,
keyed by the opaque state string; values are `createdAt` in epoch
milliseconds. -/
abbrev StateRegistry := List (String × Int)

/-- `oauthStates.has(state)`. -/
def hasState (reg : StateRegistry) (state : String) : Bool :=
  reg.any (fun e => e.1 == state)

/-- `oauthStates.delete(state)`. -/
def deleteState (reg : StateRegistry) (state : String) : StateRegistry :=
  reg.filter (fun e => !(e.1 == state))

/-- `cleanupOAuthStates()` (`routes.ts` 25-33): remove every entry whose
`createdAt` is before `now - 10 minutes`. Invoked from the
`/auth/hubspot` authorization-start handler, not from the callback. -/
def cleanupOAuthStates (nowMs : Int) (reg : StateRegistry) : StateRegistry :=
  let tenMinutesAgo := nowMs - 10 * 60 * 1000
  reg.filter (fun e => !(e.2 < tenMinutesAgo))

/-- The state validation performed by `GET /auth/hubspot/callback`
(`routes.ts` 145-149): reject when the `state` query parameter is
missing, not a string, or not present in the registry; otherwise accept
and delete it. The registry entry's age is not consulted here. Returns
(accepted?, registry after the check). -/
def callbackStateCheck (reg : StateRegistry) (state : Option String) :
    Bool × StateRegistry :=
  match state with
  | none => (false, reg)
  | some s =>
      if hasState reg s then (true, deleteState reg s)
      else (false, reg)

/-- The 62-character alphabet used by `generateOAuthState`
(`routes.ts` 37). -/
def oauthStateChars : List Char :=
  "ABCDEFGHIJKLMNOPQRSTUVWXYZabcdefghijklmnopqrstuvwxyz0123456789".toList

/-- `generateOAuthState()` (`routes.ts` 36-43): 32 characters, each
picked as `chars.charAt(Math.floor(Math.random() * chars.length))`.
The stream of `Math.floor(Math.random() * 62)` draws is the `rand`
argument; `Math.random()` is the runtime's seedable, non-cryptographic
PRNG, so `rand` is an arbitrary function into `Fin 62`, carrying no
unpredictability guarantee. -/
def generateOAuthState (rand : Nat → Fin 62) : String :=
  String.mk ((List.range 32).map (fun i => oauthStateChars.getD (rand i).val 'A'))

/-! ## Invoice records and overdue / paid classification -/

/-- An invoice's fetched properties, as read from the provider
(`crm.objects.basicApi.getById("invoices", id, [...])`). Missing
(null/undefined) string properties are `none`; `amountPaid` is the
numeric value of `parseFloat(hs_amount_paid || "0")`; `dueDate` is the
parsed `hs_due_date` as a `YYYYMMDD` integer, `none` when null. -/
structure InvoiceRecord where
  id : String
  number : Option String
  status : Option String
  collectionStatus : Option String
  paymentStatus : Option String
  amountPaid : Int
  dueDate : Option Int
deriving Repr, DecidableEq

/-- JavaScript `toLowerCase()` on the ASCII property values in play,
written over the character list so that it evaluates by kernel
reduction. -/
def toLowerStr (s : String) : String :=
  String.mk (s.data.map Char.toLower)

/-- `invoice.properties.hs_invoice_status?.toLowerCase() || ""`. -/
def invoiceStatusLower (inv : InvoiceRecord) : String :=
  toLowerStr (inv.status.getD "")

/-- `invoice.properties.hs_collection_status?.toLowerCase() || ""`. -/
def collectionStatusLower (inv : InvoiceRecord) : String :=
  toLowerStr (inv.collectionStatus.getD "")

/-- `invoice.properties.hs_payment_status?.toLowerCase() || ""`. -/
def paymentStatusLower (inv : InvoiceRecord) : String :=
  toLowerStr (inv.paymentStatus.getD "")

/-- The derived overdue classification used by the company-detail
endpoint's `overdueCount` (`routes.ts` 377-385): status (lowercased)
equals "open", the due date is non-null, and the due date is before the
request's midnight-truncated `today`. -/
def isOverdueDerived (inv : InvoiceRecord) (today : Int) : Bool :=
  invoiceStatusLower inv == "open" &&
    match inv.dueDate with
    | some d => decide (d < today)
    | none => false

/-- `overdueCount` accumulated over the fetched invoices
(`routes.ts` 366-385). -/
def overdueCount (invoices : List InvoiceRecord) (today : Int) : Nat :=
  (invoices.filter (fun inv => isOverdueDerived inv today)).length

/-- The overdue test used by the live bulk-archive and single-archive
endpoints (`routes.ts` 549, 644):
`collectionStatus === "overdue" || invoiceStatus === "overdue"`. -/
def isOverdueStatus (inv : InvoiceRecord) : Bool :=
  collectionStatusLower inv == "overdue" || invoiceStatusLower inv == "overdue"

/-- The paid test used by the live bulk-archive and single-archive
endpoints (`routes.ts` 550, 645):
`invoiceStatus === "paid" || paymentStatus === "paid" || amountPaid > 0`. -/
def isPaidStatus (inv : InvoiceRecord) : Bool :=
  invoiceStatusLower inv == "paid" || paymentStatusLower inv == "paid" ||
    inv.amountPaid > 0

/-- `invoice.properties.hs_invoice_number || invoice.id` — the
human-readable number pushed into the result lists (`routes.ts` 650). -/
def displayNumber (inv : InvoiceRecord) : String :=
  let n := inv.number.getD ""
  if n == "" then inv.id else n

/-! ## Bulk archive workflow
(`POST /api/company/:companyId/archive-overdue-invoices`,
`routes.ts` 582-705, live branch) -/

/-- The per-invoice archive loop (`routes.ts` 658-673). `archive id`
is the outcome of `crm.objects.basicApi.archive("invoices", id)`:
`none` on success, `some reason` for a thrown error whose extracted
message is `reason`. Returns (archivedInvoices, failedInvoices). -/
def archiveLoop (archive : String → Option String) :
    List InvoiceRecord → List String × List (String × String)
  | [] => ([], [])
  | inv :: rest =>
      let tail := archiveLoop archive rest
      match archive inv.id with
      | none => (displayNumber inv :: tail.1, tail.2)
      | some reason => (tail.1, (displayNumber inv, reason) :: tail.2)

/-- The JSON body the bulk endpoint responds with, plus an observation
of how many times the company `bad_debt` update was attempted.
`failedInvoices = none` models a response body without that field
(the outer-catch body has no `failedInvoices`). -/
structure BulkArchiveResponse where
  status : Nat
  success : Bool
  archivedCount : Nat
  archivedInvoices : List String
  failedInvoices : Option (List (String × String))
  companyUpdateAttempts : Nat
deriving Repr, DecidableEq

/-- The live branch of the bulk endpoint after the invoice fetch loop:
filter to overdue-and-not-paid (`routes.ts` 627-656, per-invoice fetch
failures already omitted upstream by its catch), run the archive loop,
then attempt the company `bad_debt := "true"` update once. If that
update throws, the outer catch (`routes.ts` 696-704) returns the 500
body with `archivedCount: 0`, `archivedInvoices: []` and no
`failedInvoices` field. -/
def archiveOverdueInvoicesEndpoint (invoices : List InvoiceRecord)
    (archive : String → Option String) (companyUpdateOk : Bool) :
    BulkArchiveResponse :=
  let overdueUnpaid :=
    invoices.filter (fun inv => isOverdueStatus inv && !isPaidStatus inv)
  let outcome := archiveLoop archive overdueUnpaid
  if companyUpdateOk then
    { status := 200
      success := true
      archivedCount := outcome.1.length
      archivedInvoices := outcome.1
      failedInvoices := some outcome.2
      companyUpdateAttempts := 1 }
  else
    { status := 500
      success := false
      archivedCount := 0
      archivedInvoices := []
      failedInvoices := none
      companyUpdateAttempts := 1 }

/-! ## Single-invoice archive
(`POST /api/company/:companyId/invoice/:invoiceId/archive`,
`routes.ts` 520-580, live branch) -/

/-- Observed outcome of the single-invoice archive endpoint:
HTTP status, success flag, number of provider read calls made
(the invoice fetch at `routes.ts` 537-541), and number of provider
mutation calls made (the invoice archive and the company update). -/
structure SingleArchiveResponse where
  status : Nat
  success : Bool
  readCalls : Nat
  mutationCalls : Nat
deriving Repr, DecidableEq

/-- The live branch of the single-invoice archive endpoint: fetch the
invoice (one provider read), compute `isOverdue` / `isPaid` from the
fetched properties (`routes.ts` 543-550), reject with 400 when
`!isOverdue || isPaid`, else archive the invoice and update the
company; a thrown mutation lands in the catch (500). -/
def archiveSingleInvoiceEndpoint (inv : InvoiceRecord)
    (archiveOk companyUpdateOk : Bool) : SingleArchiveResponse :=
  if !isOverdueStatus inv || isPaidStatus inv then
    { status := 400, success := false, readCalls := 1, mutationCalls := 0 }
  else if !archiveOk then
    { status := 500, success := false, readCalls := 1, mutationCalls := 1 }
  else if !companyUpdateOk then
    { status := 500, success := false, readCalls := 1, mutationCalls := 2 }
  else
    { status := 200, success := true, readCalls := 1, mutationCalls := 2 }

/-! ## Mark bad debt (`POST /api/mark-bad-debt`, `routes.ts` 237-280) -/

/-- A request-body `badDebt` value accepted by
`markBadDebtRequestSchema`: `z.union([z.boolean(), z.string(),
z.number()])`. JSON numbers are modelled as `Int`. -/
inductive BadDebtValue
  | boolVal (b : Bool)
  | strVal (s : String)
  | numVal (n : Int)
deriving Repr, DecidableEq

/-- The coercion at `routes.ts` 251-252:
`badDebt === true || badDebt === "true" || badDebt === 1 || badDebt === "1"`
(strict equality never identifies values of different runtime types). -/
def isChecked (badDebt : BadDebtValue) : Bool :=
  badDebt == .boolVal true || badDebt == .strVal "true" ||
    badDebt == .numVal 1 || badDebt == .strVal "1"

/-- Observed outcome of the mark-bad-debt endpoint: HTTP status,
success flag, the `bad_debt` field of the response body, and the value
passed to `crm.companies.basicApi.update` for the company's `bad_debt`
property (`none` when no update call was made, i.e. mock mode or before
a failure). -/
structure MarkBadDebtResponse where
  status : Nat
  success : Bool
  bad_debt : Option String
  updateCallValue : Option String
deriving Repr, DecidableEq

/-- `POST /api/mark-bad-debt` after schema validation (`routes.ts`
248-271): coerce `badDebt` with `isChecked`, write the resulting
string to the company when a client is available (mock response when
not); a thrown update lands in the catch (500). -/
def markBadDebtEndpoint (badDebt : BadDebtValue)
    (clientPresent updateOk : Bool) : MarkBadDebtResponse :=
  let newValue := if isChecked badDebt then "true" else "false"
  if !clientPresent then
    { status := 200, success := true, bad_debt := some newValue
      updateCallValue := none }
  else if updateOk then
    { status := 200, success := true, bad_debt := some newValue
      updateCallValue := some newValue }
  else
    { status := 500, success := false, bad_debt := none
      updateCallValue := some newValue }

/-! ## Company detail (`GET /api/company/:companyId`, `routes.ts` 282-442) -/

/-- The hardcoded demo invoices of the mock branch (`routes.ts`
294-301), with due dates in `YYYYMMDD` form. -/
def mockInvoices : List InvoiceRecord :=
  [ ⟨"101", some "INV-2024-001", some "paid", none, none, 0, some 20241115⟩,
    ⟨"102", some "INV-2024-002", some "open", none, none, 0, some 20250115⟩,
    ⟨"103", some "INV-2024-003", some "open", none, none, 0, some 20241201⟩,
    ⟨"104", some "INV-2024-004", some "open", none, none, 0, some 20241120⟩,
    ⟨"105", some "INV-2024-005", some "draft", none, none, 0, none⟩,
    ⟨"106", some "INV-2024-006", some "voided", none, none, 0, some 20241001⟩ ]

/-- The mock branch's overdue filter (`routes.ts` 305-309):
`inv.hs_invoice_status !== "open" || !inv.hs_due_date` rejects, else
compare the due date with today (no lowercasing here). -/
def mockIsOverdue (inv : InvoiceRecord) (today : Int) : Bool :=
  if !(inv.status.getD "" == "open") then false
  else
    match inv.dueDate with
    | some d => decide (d < today)
    | none => false

/-- The data the live branch would fetch from the provider: the company
name and the association fan-out sizes, plus the invoice records. -/
structure LiveCompanyFetch where
  companyName : String
  dealCount : Nat
  invoices : List InvoiceRecord
deriving Repr, DecidableEq

/-- Observed outcome of the company-detail endpoint: HTTP status, the
number of provider calls made, the company name and message fields of
the body, and the computed `overdueCount`. -/
structure CompanyEndpointResponse where
  status : Nat
  providerCalls : Nat
  companyName : String
  message : Option String
  overdueCount : Nat
deriving Repr, DecidableEq

/-- `GET /api/company/:companyId` (`routes.ts` 282-442). Resolve a
client via `getHubSpotClient`; with no client, answer 200 from the
hardcoded demo data (zero provider calls, `message` noting mock data).
With a client, fetch company + deals + invoices and classify with
`isOverdueDerived`; the provider-call count is one company fetch, two
association pages, one fetch per deal, and one fetch plus one
deal-association page per invoice. -/
def getCompanyEndpoint (cfg : OAuthConfig) (provider : ProviderRefresh)
    (now : Int) (store : TokenStore) (portalId : Option String)
    (today : Int) (live : LiveCompanyFetch) :
    CompanyEndpointResponse :=
  let resolved := getHubSpotClient cfg provider now store portalId
  match resolved.client with
  | none =>
      { status := 200
        providerCalls := 0
        companyName := "Demo Company"
        message := some "Mock data - HubSpot not connected"
        overdueCount :=
          (mockInvoices.filter (fun inv => mockIsOverdue inv today)).length }
  | some _ =>
      { status := 200
        providerCalls := 3 + live.dealCount + 2 * live.invoices.length
        companyName := live.companyName
        message := none
        overdueCount := overdueCount live.invoices today }

/-! ## Concrete instances used in the theorems below -/

/-- A stored token whose `expiresAt` (0) is within the refresh skew of
any positive `now`. -/
def staleToken : HubspotToken := ⟨"p1", "stored-access", "stored-refresh", 0⟩

/-- A token store holding only `staleToken` for portal "p1". -/
def staleStore : TokenStore := [("p1", staleToken)]

/-- OAuth client credentials configured, `HS_PRIVATE_APP_TOKEN` set. -/
def cfgWithFallback : OAuthConfig := ⟨some "cid", some "cs", some "private-app-token"⟩

/-- OAuth client credentials configured, no `HS_PRIVATE_APP_TOKEN`. -/
def cfgNoFallback : OAuthConfig := ⟨some "cid", some "cs", none⟩

/-- An invoice with status "open" and a past due date, not paid. -/
def openPastDueInvoice : InvoiceRecord :=
  ⟨"201", some "INV-X", some "open", none, none, 0, some 20240101⟩

/-- Six invoices of which exactly the 2nd and 3rd satisfy the spec's
predicate open AND due_date < 2025-06-01 AND not paid. -/
def sixSpecInvoices : List InvoiceRecord :=
  [ ⟨"301", some "INV-2024-001", some "paid", none, none, 0, some 20241115⟩,
    ⟨"302", some "INV-2024-002", some "open", none, none, 0, some 20240110⟩,
    ⟨"303", some "INV-2024-003", some "open", none, none, 0, some 20240120⟩,
    ⟨"304", some "INV-2024-004", some "open", none, none, 0, some 20990101⟩,
    ⟨"305", some "INV-2024-005", some "draft", none, none, 0, none⟩,
    ⟨"306", some "INV-2024-006", some "voided", none, none, 0, some 20241001⟩ ]

/-- Six invoices of which exactly the 2nd and 4th satisfy the live
code's selection predicate (status "overdue", not paid). -/
def sixCodeInvoices : List InvoiceRecord :=
  [ ⟨"311", some "INV-1", some "paid", none, none, 0, none⟩,
    ⟨"312", some "INV-2", some "overdue", none, none, 0, none⟩,
    ⟨"313", some "INV-3", some "open", none, none, 0, none⟩,
    ⟨"314", some "INV-4", some "overdue", none, none, 0, none⟩,
    ⟨"315", some "INV-5", some "draft", none, none, 0, none⟩,
    ⟨"316", some "INV-6", some "voided", none, none, 0, none⟩ ]

/-- An invoice the live code classifies as paid (status "paid"). -/
def paidInvoice : InvoiceRecord := ⟨"501", some "INV-P", some "paid", none, none, 0, none⟩

/-- Two invoices both selected by the live bulk predicate. -/
def twoOverdueInvoices : List InvoiceRecord :=
  [ ⟨"901", some "INV-A", some "overdue", none, none, 0, none⟩,
    ⟨"902", some "INV-B", some "overdue", none, none, 0, none⟩ ]

/-- An archive oracle that succeeds for invoice "901" and throws for
every other id with message "provider error". -/
def mixedArchive : String → Option String :=
  fun id => if id == "901" then none else some "provider error"

/-! ## Helper lemmas -/

theorem getToken_deleteToken (store : TokenStore) (pid : String) :
    getToken (deleteToken store pid) pid = none := by
  unfold getToken deleteToken
  rw [Option.map_eq_none']
  rw [List.find?_eq_none]
  intro x hx
  have hp := List.of_mem_filter hx
  simp only [Bool.not_eq_true'] at hp
  simp [hp]

theorem hasState_deleteState (reg : StateRegistry) (s : String) :
    hasState (deleteState reg s) s = false := by
  unfold hasState deleteState
  rw [List.any_eq_false]
  intro x hx
  have hp := List.of_mem_filter hx
  simp only [Bool.not_eq_true'] at hp
  simp [hp]

theorem archiveLoop_all_ok (archive : String → Option String)
    (l : List InvoiceRecord) (h : ∀ inv ∈ l, archive inv.id = none) :
    archiveLoop archive l = (l.map displayNumber, []) := by
  induction l with
  | nil => rfl
  | cons a t ih =>
      unfold archiveLoop
      rw [ih (fun inv hi => h inv (List.mem_cons_of_mem a hi))]
      rw [h a (List.mem_cons_self a t)]
      simp

theorem mem_archiveLoop_failed (archive : String → Option String)
    (l : List InvoiceRecord) (inv : InvoiceRecord) (e : String)
    (hm : inv ∈ l) (he : archive inv.id = some e) :
    (displayNumber inv, e) ∈ (archiveLoop archive l).2 := by
  induction l with
  | nil => cases hm
  | cons a t ih =>
      unfold archiveLoop
      rcases List.mem_cons.mp hm with rfl | hm'
      · simp only [he]
        exact List.mem_cons_self _ _
      · cases h : archive a.id with
        | none =>
            simp only [h]
            exact ih hm'
        | some r =>
            simp only [h]
            exact List.mem_cons_of_mem _ (ih hm')

theorem mem_archiveLoop_archived (archive : String → Option String)
    (l : List InvoiceRecord) (inv : InvoiceRecord)
    (hm : inv ∈ l) (he : archive inv.id = none) :
    displayNumber inv ∈ (archiveLoop archive l).1 := by
  induction l with
  | nil => cases hm
  | cons a t ih =>
      unfold archiveLoop
      rcases List.mem_cons.mp hm with rfl | hm'
      · simp only [he]
        exact List.mem_cons_self _ _
      · cases h : archive a.id with
        | none =>
            simp only [h]
            exact List.mem_cons_of_mem _ (ih hm')
        | some r =>
            simp only [h]
            exact ih hm'

/-! ## Claim theorems -/

/-- C1 (counterexample): with the static private-app token configured,
a stale stored token whose refresh fails does NOT make
`getHubSpotClient` return absent — the refresh routine runs (and evicts
the record) but control falls through to the private-app fallback, so
the caller receives a credentialed handle built from
`HS_PRIVATE_APP_TOKEN`. -/
theorem c1_counterexample :
    staleToken.expiresAt ≤ 1000 + 60
  ∧ (getHubSpotClient cfgWithFallback .err 1000 staleStore (some "p1")).refreshCalls = 1
  ∧ (getHubSpotClient cfgWithFallback .err 1000 staleStore (some "p1")).client
      = some ⟨"private-app-token"⟩ := by
  decide

/-- C1 (amended): when the OAuth client credentials are configured, the
tenant has a stale stored token, the provider refresh call fails, and
no static fallback credential is configured, `getHubSpotClient` deletes
the tenant's Token Store record and returns absent. -/
theorem c1_refresh_failure_evicts_and_absent (cfg : OAuthConfig)
    (now : Int) (store : TokenStore) (pid : String) (token : HubspotToken)
    (cid cs : String)
    (hcid : cfg.clientId = some cid) (hcs : cfg.clientSecret = some cs)
    (htok : getToken store pid = some token)
    (hstale : token.expiresAt ≤ now + 60)
    (hnofb : cfg.privateAppToken = none) :
    (getHubSpotClient cfg .err now store (some pid)).client = none
  ∧ getToken (getHubSpotClient cfg .err now store (some pid)).store pid = none := by
  unfold getHubSpotClient
  simp only [htok]
  rw [if_pos hstale]
  unfold refreshAccessToken
  simp only [hcid, hcs, Option.isNone_some, Bool.or_self, Bool.false_eq_true,
    if_false, fallbackClient, hnofb, Option.map_none']
  exact ⟨trivial, getToken_deleteToken store pid⟩

/-- C1 (witness): the amended statement at a concrete stale store. -/
theorem c1_witness :
    (getHubSpotClient cfgNoFallback .err 1000 staleStore (some "p1")).client = none
  ∧ getToken (getHubSpotClient cfgNoFallback .err 1000 staleStore (some "p1")).store "p1"
      = none :=
  c1_refresh_failure_evicts_and_absent cfgNoFallback 1000 staleStore "p1" staleToken
    "cid" "cs" rfl rfl (by decide) (by decide) rfl

/-- C2 (counterexample): an invoice with status "open" and a past due
date is classified overdue by the derived definition used for
`overdueCount`, yet the bulk archive workflow's selection predicate
(status or collection status equal to "overdue") does not select it:
the bulk endpoint neither archives it nor even attempts to, so the two
code paths do not share one overdue definition. -/
theorem c2_counterexample :
    isOverdueDerived openPastDueInvoice 20250601 = true
  ∧ (isOverdueStatus openPastDueInvoice && !isPaidStatus openPastDueInvoice) = false
  ∧ (archiveOverdueInvoicesEndpoint [openPastDueInvoice] (fun _ => none) true).archivedCount = 0
  ∧ (archiveOverdueInvoicesEndpoint [openPastDueInvoice] (fun _ => none) true).failedInvoices
      = some [] := by
  decide

/-- C2 (amended): the derived classification used by the overdue-count
paths is false whenever the invoice's (lowercased) status is not
"open", regardless of the due date; the bulk archive workflow, however,
selects by a different predicate (`isOverdueStatus`), so the
single-definition part of the claim does not hold. -/
theorem c2_not_open_never_overdue (inv : InvoiceRecord) (today : Int)
    (h : invoiceStatusLower inv ≠ "open") :
    isOverdueDerived inv today = false := by
  unfold isOverdueDerived
  cases hb : invoiceStatusLower inv == "open" with
  | true => exact absurd (eq_of_beq hb) h
  | false => simp

/-- C2 (witness): the amended statement at a voided invoice with a past
due date. -/
theorem c2_witness :
    isOverdueDerived ⟨"206", some "INV-V", some "voided", none, none, 0, some 20241001⟩
      20250601 = false :=
  c2_not_open_never_overdue _ 20250601 (by decide)

/-- C3 (counterexample): six fetched invoices of which exactly two
satisfy "open AND due_date < today AND not paid" (reference date
2025-06-01); every archive call would succeed and the company update
succeeds, yet the bulk endpoint reports `archivedCount = 0` with no
invoice numbers — the live selection predicate requires an explicit
"overdue" status, so the two open invoices are never selected. -/
theorem c3_counterexample :
    sixSpecInvoices.length = 6
  ∧ (sixSpecInvoices.filter
      (fun i => isOverdueDerived i 20250601 && !isPaidStatus i)).length = 2
  ∧ (archiveOverdueInvoicesEndpoint sixSpecInvoices (fun _ => none) true).archivedCount = 0
  ∧ (archiveOverdueInvoicesEndpoint sixSpecInvoices (fun _ => none) true).archivedInvoices
      = [] := by
  decide

/-- C3 (amended): for six fetched invoices of which exactly two satisfy
the live code's selection predicate (collection status or status equal
to "overdue", and not paid): when every selected archive succeeds the
endpoint reports `archivedCount = 2` listing exactly those two
invoices' numbers, and the company `bad_debt` write is attempted
exactly once as the final step for every archive outcome, including
when every archive fails. -/
theorem c3_bulk_archive_report (invoices : List InvoiceRecord)
    (archive : String → Option String) (companyUpdateOk : Bool)
    (_h6 : invoices.length = 6)
    (h2 : (invoices.filter (fun i => isOverdueStatus i && !isPaidStatus i)).length = 2) :
    ((∀ inv ∈ invoices.filter (fun i => isOverdueStatus i && !isPaidStatus i),
        archive inv.id = none) →
      (archiveOverdueInvoicesEndpoint invoices archive true).archivedCount = 2
      ∧ (archiveOverdueInvoicesEndpoint invoices archive true).archivedInvoices
          = (invoices.filter (fun i => isOverdueStatus i && !isPaidStatus i)).map
              displayNumber)
  ∧ (archiveOverdueInvoicesEndpoint invoices archive companyUpdateOk).companyUpdateAttempts
      = 1 := by
  constructor
  · intro hall
    have hloop := archiveLoop_all_ok archive _ hall
    unfold archiveOverdueInvoicesEndpoint
    simp only [hloop, if_true]
    simp [List.length_map, h2]
  · unfold archiveOverdueInvoicesEndpoint
    cases companyUpdateOk <;> rfl

/-- C3 (witness): the amended statement at six concrete invoices with
exactly two selected by the live predicate and all archives
succeeding. -/
theorem c3_witness :
    (archiveOverdueInvoicesEndpoint sixCodeInvoices (fun _ => none) true).archivedCount = 2
  ∧ (archiveOverdueInvoicesEndpoint sixCodeInvoices (fun _ => none) true).companyUpdateAttempts
      = 1 :=
  ⟨((c3_bulk_archive_report sixCodeInvoices (fun _ => none) true (by decide) (by decide)).1
      (fun _ _ => rfl)).1,
    (c3_bulk_archive_report sixCodeInvoices (fun _ => none) true (by decide) (by decide)).2⟩

/-- C4: with a stored token for the portal, a single `getHubSpotClient`
call invokes the refresh routine exactly once when
`expiresAt <= now + 60`, and zero times when `expiresAt > now + 60`, in
which case the handle is built from the stored access token. -/
theorem c4_refresh_skew (cfg : OAuthConfig) (provider : ProviderRefresh)
    (now : Int) (store : TokenStore) (pid : String) (token : HubspotToken)
    (htok : getToken store pid = some token) :
    (token.expiresAt ≤ now + 60 →
      (getHubSpotClient cfg provider now store (some pid)).refreshCalls = 1)
  ∧ (now + 60 < token.expiresAt →
      (getHubSpotClient cfg provider now store (some pid)).refreshCalls = 0
      ∧ (getHubSpotClient cfg provider now store (some pid)).client
          = some ⟨token.accessToken⟩) := by
  constructor
  · intro hstale
    unfold getHubSpotClient
    simp only [htok]
    rw [if_pos hstale]
    cases h : refreshAccessToken cfg provider now store token.refreshToken pid with
    | mk fst store' => cases fst <;> rfl
  · intro hfresh
    unfold getHubSpotClient
    simp only [htok]
    rw [if_neg (not_le.mpr hfresh)]
    exact ⟨rfl, rfl⟩

/-- C4 (witness): the theorem at a concrete stale record (one refresh
call) and, at a shifted clock where the same record is fresh, zero
refresh calls with the stored-token handle. -/
theorem c4_witness :
    (getHubSpotClient cfgNoFallback .err 1000 staleStore (some "p1")).refreshCalls = 1
  ∧ (getHubSpotClient cfgNoFallback .err (-100) staleStore (some "p1")).refreshCalls = 0
  ∧ (getHubSpotClient cfgNoFallback .err (-100) staleStore (some "p1")).client
      = some ⟨"stored-access"⟩ :=
  ⟨(c4_refresh_skew cfgNoFallback .err 1000 staleStore "p1" staleToken (by decide)).1
      (by decide),
    ((c4_refresh_skew cfgNoFallback .err (-100) staleStore "p1" staleToken (by decide)).2
      (by decide)).1,
    ((c4_refresh_skew cfgNoFallback .err (-100) staleStore "p1" staleToken (by decide)).2
      (by decide)).2⟩

/-- C5 (counterexample): a state created at time 0 and presented at the
callback at 11 minutes (660000 ms) — older than the 10-minute validity
window — is accepted as long as it is still present in the registry:
the callback's validation consults presence only, never age. -/
theorem c5_counterexample :
    (callbackStateCheck [("s1", 0)] (some "s1")).1 = true
  ∧ ((660000 : Int) - 0 ≥ 10 * 60 * 1000) := by
  constructor
  · decide
  · decide

/-- C5 (amended): the callback accepts a presented state exactly when
it is present in the registry, and consumption is single-use (the state
is absent from the registry afterwards); the 10-minute age bound is
enforced only by the sweep run when a new state is issued, which
removes exactly the entries older than 10 minutes, so an expired state
that survived in the registry is still accepted by the callback. -/
theorem c5_state_check_presence_only (reg : StateRegistry) (s : String) (nowMs : Int) :
    (callbackStateCheck reg (some s)).1 = hasState reg s
  ∧ hasState (callbackStateCheck reg (some s)).2 s = false
  ∧ (∀ e ∈ cleanupOAuthStates nowMs reg, ¬(e.2 < nowMs - 10 * 60 * 1000)) := by
  refine ⟨?_, ?_, ?_⟩
  · unfold callbackStateCheck
    cases h : hasState reg s <;> simp [h]
  · unfold callbackStateCheck
    show hasState (if hasState reg s = true then (true, deleteState reg s)
      else (false, reg)).2 s = false
    cases h : hasState reg s with
    | true => simpa using hasState_deleteState reg s
    | false => simpa using h
  · intro e he
    have hp := List.of_mem_filter he
    simpa using hp

/-- C5 (witness): the amended statement instantiated at a one-entry
registry. -/
theorem c5_witness :
    (callbackStateCheck [("a", 5)] (some "a")).1 = hasState [("a", 5)] "a"
  ∧ hasState (callbackStateCheck [("a", 5)] (some "a")).2 "a" = false :=
  ⟨(c5_state_check_presence_only [("a", 5)] "a" 700000).1,
    (c5_state_check_presence_only [("a", 5)] "a" 700000).2.1⟩

/-- C6: the generated CSRF state always has exactly 32 characters, each
drawn from the 62-character alphanumeric alphabet — this holds for any
stream of `Math.floor(Math.random() * 62)` draws. The randomness
source itself, however, is `Math.random()`, not a cryptographically
strong generator (see `generateOAuthState`). -/
theorem c6_state_shape (rand : Nat → Fin 62) :
    (generateOAuthState rand).length = 32
  ∧ ∀ c ∈ (generateOAuthState rand).data, c ∈ oauthStateChars := by
  constructor
  · show (String.mk ((List.range 32).map
      (fun i => oauthStateChars.getD (rand i).val 'A'))).length = 32
    simp [String.length]
  · intro c hc
    have hmem : ∀ j : Fin 62, oauthStateChars.getD j.val 'A' ∈ oauthStateChars := by
      decide
    simp only [generateOAuthState] at hc
    rcases List.mem_map.mp hc with ⟨i, _, hci⟩
    exact hci ▸ hmem (rand i)

/-- C7 (counterexample): a destructive single-invoice request for an
invoice the code classifies as paid is rejected with 400 and zero
provider mutation calls, but one provider call was already made — the
invoice fetch happens before the precondition check, so the rejection
is not reached with "no remote calls attempted". -/
theorem c7_counterexample :
    (archiveSingleInvoiceEndpoint paidInvoice true true).status = 400
  ∧ (archiveSingleInvoiceEndpoint paidInvoice true true).readCalls
      + (archiveSingleInvoiceEndpoint paidInvoice true true).mutationCalls = 1 := by
  decide

/-- C7 (amended): whenever the fetched invoice is not classified
overdue or is classified paid, the single-invoice archive endpoint
returns a 400 rejection having attempted zero destructive (mutating)
provider calls; exactly one provider read — the invoice fetch that the
precondition check needs — has been made. -/
theorem c7_precondition_gate (inv : InvoiceRecord) (archiveOk companyUpdateOk : Bool)
    (h : isOverdueStatus inv = false ∨ isPaidStatus inv = true) :
    (archiveSingleInvoiceEndpoint inv archiveOk companyUpdateOk).status = 400
  ∧ (archiveSingleInvoiceEndpoint inv archiveOk companyUpdateOk).success = false
  ∧ (archiveSingleInvoiceEndpoint inv archiveOk companyUpdateOk).mutationCalls = 0
  ∧ (archiveSingleInvoiceEndpoint inv archiveOk companyUpdateOk).readCalls = 1 := by
  unfold archiveSingleInvoiceEndpoint
  rcases h with h | h <;> simp [h]

/-- C7 (witness): the amended statement at the paid invoice. -/
theorem c7_witness :
    (archiveSingleInvoiceEndpoint paidInvoice true false).status = 400
  ∧ (archiveSingleInvoiceEndpoint paidInvoice true false).success = false
  ∧ (archiveSingleInvoiceEndpoint paidInvoice true false).mutationCalls = 0
  ∧ (archiveSingleInvoiceEndpoint paidInvoice true false).readCalls = 1 :=
  c7_precondition_gate paidInvoice true false (Or.inr (by decide))

/-- C8 (counterexample): the company-detail endpoint called with no
stored token for the tenant and no static fallback credential answers
200 with the hardcoded demo payload ("Mock data - HubSpot not
connected"), not 401: it does substitute fabricated data with a
success status. -/
theorem c8_counterexample :
    (getCompanyEndpoint cfgNoFallback .err 1000 [] (some "123") 20250601
        ⟨"Acme", 0, []⟩).status = 200
  ∧ (getCompanyEndpoint cfgNoFallback .err 1000 [] (some "123") 20250601
        ⟨"Acme", 0, []⟩).status ≠ 401
  ∧ (getCompanyEndpoint cfgNoFallback .err 1000 [] (some "123") 20250601
        ⟨"Acme", 0, []⟩).message = some "Mock data - HubSpot not connected" := by
  decide

/-- C8 (amended): with no stored token for the tenant and no static
fallback credential configured, the company-detail endpoint makes zero
provider calls but responds 200 with the mock demo payload (company
"Demo Company" and a message noting HubSpot is not connected) rather
than 401 NotConnected. -/
theorem c8_mock_fallback (cfg : OAuthConfig) (provider : ProviderRefresh)
    (now : Int) (store : TokenStore) (pid : String) (today : Int)
    (live : LiveCompanyFetch)
    (htok : getToken store pid = none)
    (hnofb : cfg.privateAppToken = none) :
    (getCompanyEndpoint cfg provider now store (some pid) today live).status = 200
  ∧ (getCompanyEndpoint cfg provider now store (some pid) today live).providerCalls = 0
  ∧ (getCompanyEndpoint cfg provider now store (some pid) today live).message
      = some "Mock data - HubSpot not connected" := by
  unfold getCompanyEndpoint getHubSpotClient
  simp only [htok, fallbackClient, hnofb, Option.map_none']
  exact ⟨trivial, trivial, trivial⟩

/-- C8 (witness): the amended statement at an empty token store. -/
theorem c8_witness :
    (getCompanyEndpoint cfgNoFallback .err 1000 [] (some "123") 20250601
        ⟨"Acme", 0, []⟩).status = 200
  ∧ (getCompanyEndpoint cfgNoFallback .err 1000 [] (some "123") 20250601
        ⟨"Acme", 0, []⟩).providerCalls = 0
  ∧ (getCompanyEndpoint cfgNoFallback .err 1000 [] (some "123") 20250601
        ⟨"Acme", 0, []⟩).message = some "Mock data - HubSpot not connected" :=
  c8_mock_fallback cfgNoFallback .err 1000 [] "123" 20250601 ⟨"Acme", 0, []⟩ rfl rfl

/-- C9 (counterexample): two invoices are selected, one archive
succeeds and one fails; when the final company `bad_debt` write then
fails, the outer catch answers with no `failedInvoices` field and an
empty `archivedInvoices` list — both observed per-item outcomes are
dropped — although the same run with a succeeding final write would
have reported them. -/
theorem c9_counterexample :
    (archiveOverdueInvoicesEndpoint twoOverdueInvoices mixedArchive false).failedInvoices
      = none
  ∧ (archiveOverdueInvoicesEndpoint twoOverdueInvoices mixedArchive false).archivedInvoices
      = []
  ∧ mixedArchive "902" = some "provider error"
  ∧ (archiveOverdueInvoicesEndpoint twoOverdueInvoices mixedArchive true).failedInvoices
      = some [("INV-B", "provider error")]
  ∧ (archiveOverdueInvoicesEndpoint twoOverdueInvoices mixedArchive true).archivedInvoices
      = ["INV-A"] := by
  decide

/-- C9 (amended): when the final company write succeeds, the bulk
response reports every per-item outcome: each selected invoice whose
archive failed appears in the `failedInvoices` list with its number and
reason, and each selected invoice whose archive succeeded appears in
`archivedInvoices`; when the final company write fails, the outer
catch's 500 body carries no per-item lists. -/
theorem c9_per_item_reporting (invoices : List InvoiceRecord)
    (archive : String → Option String) (inv : InvoiceRecord)
    (hsel : inv ∈ invoices.filter (fun i => isOverdueStatus i && !isPaidStatus i)) :
    (∀ e, archive inv.id = some e →
      ∃ fs, (archiveOverdueInvoicesEndpoint invoices archive true).failedInvoices = some fs
          ∧ (displayNumber inv, e) ∈ fs)
  ∧ (archive inv.id = none →
      displayNumber inv
        ∈ (archiveOverdueInvoicesEndpoint invoices archive true).archivedInvoices) := by
  constructor
  · intro e he
    refine ⟨(archiveLoop archive
      (invoices.filter (fun i => isOverdueStatus i && !isPaidStatus i))).2, rfl, ?_⟩
    exact mem_archiveLoop_failed archive _ inv e hsel he
  · intro he
    show displayNumber inv ∈ (archiveLoop archive
      (invoices.filter (fun i => isOverdueStatus i && !isPaidStatus i))).1
    exact mem_archiveLoop_archived archive _ inv hsel he

/-- C9 (witness): the amended statement's success side at the concrete
two-invoice run. -/
theorem c9_witness :
    displayNumber ⟨"901", some "INV-A", some "overdue", none, none, 0, none⟩
      ∈ (archiveOverdueInvoicesEndpoint twoOverdueInvoices mixedArchive true).archivedInvoices :=
  (c9_per_item_reporting twoOverdueInvoices mixedArchive
    ⟨"901", some "INV-A", some "overdue", none, none, 0, none⟩ (by decide)).2 (by decide)

/-- C10: any schema-accepted `badDebt` value other than exactly `true`,
"true", `1` or "1" is coerced to unchecked: the endpoint passes the
string "false" to the company `bad_debt` update and responds 200 with
`success: true` and `bad_debt: "false"` (given a resolved client and a
succeeding provider write). -/
theorem c10_coercion_to_false (v : BadDebtValue)
    (h : v ≠ .boolVal true ∧ v ≠ .strVal "true" ∧ v ≠ .numVal 1 ∧ v ≠ .strVal "1") :
    (markBadDebtEndpoint v true true).status = 200
  ∧ (markBadDebtEndpoint v true true).success = true
  ∧ (markBadDebtEndpoint v true true).updateCallValue = some "false"
  ∧ (markBadDebtEndpoint v true true).bad_debt = some "false" := by
  obtain ⟨h1, h2, h3, h4⟩ := h
  have hic : isChecked v = false := by
    unfold isChecked
    simp [h1, h2, h3, h4]
  unfold markBadDebtEndpoint
  simp [hic]

/-- C10 (witness): the theorem at the value "TRUE", which is not one of
the four recognized encodings. -/
theorem c10_witness :
    (markBadDebtEndpoint (.strVal "TRUE") true true).status = 200
  ∧ (markBadDebtEndpoint (.strVal "TRUE") true true).success = true
  ∧ (markBadDebtEndpoint (.strVal "TRUE") true true).updateCallValue = some "false"
  ∧ (markBadDebtEndpoint (.strVal "TRUE") true true).bad_debt = some "false" :=
  c10_coercion_to_false (.strVal "TRUE") ⟨by decide, by decide, by decide, by decide⟩

end InvoiceManager
